import Mathlib

/-
Verification of the concurrent musical-chairs game (src/src/main.cpp).

The C++ program runs NUM_JOGADORES = 4 player threads and one coordinator
thread.  A counting semaphore `cadeira_sem` is the seat pool, the condition
variable `music_cv` with `music_mutex` gates the claim window, and the atomics
`musica_parada`, `jogo_ativo` and `numero_cadeira` are the shared round state.

This file gives a shallow embedding of that program:

* the semaphore counter is a `Nat` with `try_acquire` / `release` / the
  drain loop of `JogoDasCadeiras::iniciar_rodada`;
* a player (`Jogador`) is a record of its id and the two atomic flags;
* a single seat-claim delivery (`tentar_ocupar_cadeira` followed by
  `verificar_eliminacao`) is a pure function on the shared counters plus the
  player record;
* coordinator operations (`parar_musica`, `liberar_threads_eliminadas`,
  `iniciar_rodada`, `reseta_rodada_jogadores`, the main loop of
  `Coordenador::iniciar_jogo`) are functions on a global `GameState`;
* scheduling is made explicit: safety claims are proved for arbitrary
  sequences of primitive operations (`Op` / `applyOps`), while round-level
  functional claims use the synchronous schedule the spec assumes (every
  active player gets exactly one claim delivery per round, `tentativas`);
* the end-of-game condition-variable handshake is modelled separately as a
  small labelled transition system (`CvStep`) precise enough to expose the
  lost-wakeup window of `Coordenador::iniciar_jogo` lines 213-214.

The constant NUM_JOGADORES is generalised to a parameter `n` wherever the
source uses it, so that claims quantified over the number of participants can
be stated; the shipped program instantiates `n = 4`.
-/

/-- Compile-time constant NUM_JOGADORES from main.cpp line 12. -/
def NUM_JOGADORES : Nat := 4

/-- One player object (class Jogador): stable id plus the two atomic flags
`ativo` and `tentou_rodada`. -/
structure Jogador where
  id : Int
  ativo : Bool
  tentou_rodada : Bool
  deriving DecidableEq, Repr

/-- Jogador constructor: `Jogador(int id) : id(id), ativo(true), tentou_rodada(false)`. -/
def Jogador.nova (id : Int) : Jogador :=
  { id := id, ativo := true, tentou_rodada := false }

/-- Jogador::esta_ativo. -/
def Jogador.esta_ativo (p : Jogador) : Bool := p.ativo

/-- Jogador::reseta_rodada: clears only the per-round attempt flag. -/
def Jogador.reseta_rodada (p : Jogador) : Jogador :=
  { p with tentou_rodada := false }

/-- Semaphore try_acquire: succeeds and consumes one permit iff the counter is
positive, otherwise fails leaving the counter untouched. -/
def try_acquire (sem : Nat) : Bool × Nat :=
  if 0 < sem then (true, sem - 1) else (false, sem)

/-- Semaphore release(n): adds n permits. -/
def release (sem : Nat) (n : Nat) : Nat := sem + n

/-- The drain loop of JogoDasCadeiras::iniciar_rodada (lines 54-56): repeated
try_acquire until one fails.  On a positive counter try_acquire succeeds,
leaving one permit fewer, and the loop continues; on 0 it fails and the loop
exits.  (Structural recursion; `drain_eq_loop` below shows this matches the
loop body literally.) -/
def drain : Nat → Nat
  | 0 => 0
  | sem + 1 => drain sem

/-- The structural `drain` satisfies the source's loop equation verbatim. -/
theorem drain_eq_loop (sem : Nat) :
    drain sem = if (try_acquire sem).1 then drain (try_acquire sem).2
                else (try_acquire sem).2 := by
  cases sem <;> simp [drain, try_acquire]

/-- The shared atomics touched by a seat claim: the semaphore counter and the
`numero_cadeira` ordinal counter. -/
structure Shared where
  sem : Nat
  num : Nat
  deriving DecidableEq, Repr

/-- Result of delivering one wake to a player: updated shared counters, updated
player, and the chair ordinal printed on success (none on failure / no-op). -/
structure TentRes where
  sh : Shared
  p : Jogador
  label : Option Nat
  deriving DecidableEq, Repr

/-- Jogador::verificar_eliminacao (lines 140-157): try_acquire on the seat
semaphore; on success print `numero_cadeira.fetch_add(1) + 1`, on failure set
`ativo := false`. -/
def verificar_eliminacao (sh : Shared) (p : Jogador) : TentRes :=
  if (try_acquire sh.sem).1 then
    { sh := { sem := (try_acquire sh.sem).2, num := sh.num + 1 },
      p := p,
      label := some (sh.num + 1) }
  else
    { sh := sh, p := { p with ativo := false }, label := none }

/-- Jogador::tentar_ocupar_cadeira (lines 129-138): guarded by
`ativo && !tentou_rodada.exchange(true)`; the exchange sets the flag before the
claim is checked. -/
def tentar_ocupar_cadeira (sh : Shared) (p : Jogador) : TentRes :=
  if p.ativo && !p.tentou_rodada then
    verificar_eliminacao sh { p with tentou_rodada := true }
  else
    { sh := sh, p := p, label := none }

/-- The guard of tentar_ocupar_cadeira: true exactly when this wake makes the
`tentou_rodada` flag transition to true and a seat claim is performed. -/
def atentou (p : Jogador) : Bool := p.ativo && !p.tentou_rodada

/-- Result of one round's claim window under the synchronous schedule: final
shared counters, updated player list, and the chair ordinals printed, in
print order. -/
structure RodadaRes where
  sh : Shared
  js : List Jogador
  labels : List Nat
  deriving DecidableEq, Repr

/-- The claim window of one round under the schedule the spec assumes (grace
period long enough): every player receives exactly one wake, in list order,
and runs tentar_ocupar_cadeira. -/
def tentativas : Shared → List Jogador → RodadaRes
  | sh, [] => ⟨sh, [], []⟩
  | sh, p :: ps =>
    let t := tentar_ocupar_cadeira sh p
    let r := tentativas t.sh ps
    ⟨r.sh, t.p :: r.js, t.label.toList ++ r.labels⟩

/-- Active-player count of a list, as computed by Coordenador::jogadores_ativos
(lines 222-230). -/
def contar_ativos (ps : List Jogador) : Nat :=
  ps.countP fun p => p.esta_ativo

/-- Coordenador::encontrar_vencedor (lines 232-239): id of the first active
player, `-1` when none is active. -/
def encontrar_vencedor : List Jogador → Int
  | [] => -1
  | p :: ps => if p.esta_ativo then p.id else encontrar_vencedor ps

/-- The global shared state: JogoDasCadeiras::cadeiras, the seat semaphore
counter, the three global atomics, and the player vector. -/
structure GameState where
  cadeiras : Int
  semCount : Nat
  numero_cadeira : Nat
  musica_parada : Bool
  jogo_ativo : Bool
  jogadores : List Jogador
  deriving DecidableEq, Repr

/-- Coordenador::jogadores_ativos on the global state. -/
def jogadores_ativos (s : GameState) : Nat := contar_ativos s.jogadores

/-- JogoDasCadeiras::jogo_ativo (lines 92-94), renamed because the source name
also denotes the global atomic flag: more than one player still active. -/
def jogo_ativo_check (jogadores_ativos : Int) : Bool :=
  decide (1 < jogadores_ativos)

/-- JogoDasCadeiras::parar_musica (lines 66-76): store `musica_parada := true`
(the notify_all is scheduling, handled by the schedule models below). -/
def parar_musica (s : GameState) : GameState :=
  { s with musica_parada := true }

/-- Coordenador::liberar_threads_eliminadas (lines 217-220):
`cadeira_sem.release(NUM_JOGADORES - 1)`, with the constant generalised
to the parameter n. -/
def liberar_threads_eliminadas (n : Nat) (s : GameState) : GameState :=
  { s with semCount := release s.semCount (n - 1) }

/-- JogoDasCadeiras::iniciar_rodada (lines 49-64): `cadeiras--`, reset
`numero_cadeira` to 1, drain the semaphore, release `cadeiras` permits, and
restart the music.  The parameter `jogadores_ativos` only selects whether the
round banner is printed, so it does not affect the state.  `release` of a
negative int is UB in C++, hence the `toNat`. -/
def iniciar_rodada (s : GameState) (jogadores_ativos : Int) : GameState :=
  { s with
    cadeiras := s.cadeiras - 1,
    numero_cadeira := 1,
    semCount := release (drain s.semCount) (s.cadeiras - 1).toNat,
    musica_parada := false }

/-- Coordenador::reseta_rodada_jogadores (lines 241-245). -/
def reseta_rodada_jogadores (s : GameState) : GameState :=
  { s with jogadores := s.jogadores.map Jogador.reseta_rodada }

/-- The grace period of one round under the synchronous schedule: every player
gets exactly one wake (the printed labels are dropped at this level). -/
def grace_period (s : GameState) : GameState :=
  { s with
    semCount := (tentativas ⟨s.semCount, s.numero_cadeira⟩ s.jogadores).sh.sem,
    numero_cadeira := (tentativas ⟨s.semCount, s.numero_cadeira⟩ s.jogadores).sh.num,
    jogadores := (tentativas ⟨s.semCount, s.numero_cadeira⟩ s.jogadores).js }

/-- One iteration of the while-loop body of Coordenador::iniciar_jogo
(lines 200-208): stop the music, let the players scramble during the grace
sleep, release the waiting threads, start the next round, reset the per-round
flags. -/
def loop_body (n : Nat) (s : GameState) : GameState :=
  reseta_rodada_jogadores
    (iniciar_rodada
      (liberar_threads_eliminadas n (grace_period (parar_musica s)))
      (jogadores_ativos (liberar_threads_eliminadas n (grace_period (parar_musica s))) : Int))

/-- The while-loop of Coordenador::iniciar_jogo, with explicit fuel (the
termination argument shows any fuel of at least n - 1 suffices). -/
def iniciar_jogo_loop (n : Nat) : Nat → GameState → GameState
  | 0, s => s
  | f + 1, s =>
    if jogo_ativo_check (jogadores_ativos s : Int) then
      iniciar_jogo_loop n f (loop_body n s)
    else s

/-- Coordenador::iniciar_jogo (lines 194-215): run the loop, announce the
winner (the printed id), store `jogo_ativo := false`. -/
def iniciar_jogo (n fuel : Nat) (s : GameState) : GameState × Int :=
  ({ iniciar_jogo_loop n fuel s with jogo_ativo := false },
   encontrar_vencedor (iniciar_jogo_loop n fuel s).jogadores)

/-- The state built by main (lines 253-277) just before the threads run:
players 1..n all active, `cadeiras = n - 1`, semaphore initialised to n - 1,
`numero_cadeira = 1`, music playing, game alive. -/
def estado_inicial (n : Nat) : GameState :=
  { cadeiras := (n : Int) - 1,
    semCount := n - 1,
    numero_cadeira := 1,
    musica_parada := false,
    jogo_ativo := true,
    jogadores := (List.range n).map fun (i : Nat) => Jogador.nova ((i : Int) + 1) }

/-- main (lines 253-294): build the state, run the coordinator (fuel n is
enough), join, return 0.  Result: final state, announced winner, exit code. -/
def main_run (n : Nat) : GameState × Int × Int :=
  ((iniciar_jogo n n (estado_inicial n)).1, (iniciar_jogo n n (estado_inicial n)).2, 0)

/-- Delivery of one wake to player j of the global state: the body of
Jogador::joga past the condition wait, i.e. one call of
tentar_ocupar_cadeira by thread j.  Out-of-range j does nothing. -/
def tentar_at (s : GameState) (j : Nat) : GameState :=
  match s.jogadores[j]? with
  | none => s
  | some p =>
    { s with
      semCount := (tentar_ocupar_cadeira ⟨s.semCount, s.numero_cadeira⟩ p).sh.sem,
      numero_cadeira := (tentar_ocupar_cadeira ⟨s.semCount, s.numero_cadeira⟩ p).sh.num,
      jogadores := s.jogadores.set j (tentar_ocupar_cadeira ⟨s.semCount, s.numero_cadeira⟩ p).p }

/-- The primitive shared-state operations any component can perform: each
constructor is one source operation; a schedule is a list of these. -/
inductive Op where
  | parar
  | tentar (j : Nat)
  | liberar
  | rodada
  | reseta
  | fim
  deriving DecidableEq, Repr

/-- Apply one primitive operation.  `rodada` passes the live count, mirroring
`jogo.iniciar_rodada(jogadores_ativos())`; `fim` is the final
`jogo_ativo.store(false)`. -/
def applyOp (n : Nat) (s : GameState) : Op → GameState
  | .parar => parar_musica s
  | .tentar j => tentar_at s j
  | .liberar => liberar_threads_eliminadas n s
  | .rodada => iniciar_rodada s (jogadores_ativos s : Int)
  | .reseta => reseta_rodada_jogadores s
  | .fim => { s with jogo_ativo := false }

/-- Apply a schedule of primitive operations in order. -/
def applyOps (n : Nat) (s : GameState) : List Op → GameState
  | [] => s
  | op :: ops => applyOps n (applyOp n s op) ops

/-- One round of the shipped N=4 program at operation granularity: music stops,
each of the four player threads gets its wake, the coordinator releases the
waiting threads, starts the next round and clears the attempt flags. -/
def ops_rodada4 : List Op :=
  [.parar, .tentar 0, .tentar 1, .tentar 2, .tentar 3, .liberar, .rodada, .reseta]

/-- The full N=4 run at operation granularity: three rounds (4 → 3 → 2 → 1
active players) and the final `jogo_ativo.store(false)`. -/
def ops_jogo4 : List Op :=
  ops_rodada4 ++ ops_rodada4 ++ ops_rodada4 ++ [.fim]

/-- Observation trace of the N=4 run: the pair (semaphore count, cadeiras)
after every primitive operation, the initial state included. -/
def trace4 : List (Nat × Int) :=
  (ops_jogo4.scanl (applyOp 4) (estado_inicial 4)).map fun s => (s.semCount, s.cadeiras)

/-
End-of-game condition-variable handshake (Coordenador::iniciar_jogo lines
210-215 against Jogador::joga lines 168-180), modelled as a labelled
transition system over the one thread still in the loop (the winner) and the
coordinator.  The C++ semantics points captured:

* `music_cv.wait(lock, pred)` evaluates the predicate while holding
  music_mutex and, when it is false, atomically releases the mutex and joins
  the wait set: predicate evaluation (`check`) and joining the wait set
  (`preblock` → `blocked`) are separate steps;
* the coordinator's `jogo_ativo.store(false)` is NOT performed under
  music_mutex (unlike the store in parar_musica), so it and the following
  `notify_all` may interleave between those two steps;
* `notify_all` wakes exactly the threads currently in the wait set;
* spurious wakeups are permitted but not guaranteed by the standard, so an
  execution without any is an allowed behavior and is the one modelled.

In the end-of-game window musica_parada is false (reset by the last
iniciar_rodada), so a true wait predicate means `!jogo_ativo` and the player
loop breaks (`done`).
-/

/-- Program counter of the winner's thread in the end-of-game window. -/
inductive PlayerPC where
  | check
  | preblock
  | blocked
  | done
  deriving DecidableEq, Repr

/-- Program counter of the coordinator between announcing the winner and
returning: the store to jogo_ativo, then the notify_all. -/
inductive CoordPC where
  | store
  | notify
  | done
  deriving DecidableEq, Repr

/-- Joint state of the end-of-game handshake. -/
structure CvState where
  player : PlayerPC
  coord : CoordPC
  jogoAtivo : Bool
  musicaParada : Bool
  deriving DecidableEq, Repr

/-- The wait predicate of Jogador::joga lines 172-175. -/
def waitPred (s : CvState) : Bool := s.musicaParada || !s.jogoAtivo

/-- One interleaving step of the end-of-game handshake. -/
inductive CvStep : CvState → CvState → Prop where
  | check_sai (s : CvState) :
      s.player = .check → waitPred s = true →
      CvStep s { s with player := .done }
  | check_espera (s : CvState) :
      s.player = .check → waitPred s = false →
      CvStep s { s with player := .preblock }
  | bloqueia (s : CvState) :
      s.player = .preblock →
      CvStep s { s with player := .blocked }
  | coord_store (s : CvState) :
      s.coord = .store →
      CvStep s { s with jogoAtivo := false, coord := .notify }
  | coord_notify (s : CvState) :
      s.coord = .notify →
      CvStep s { s with coord := .done,
                        player := if s.player = .blocked then .check else s.player }

/-- Start of the end-of-game window: winner at the top of its wait, music not
stopped, game still flagged alive, coordinator about to store. -/
def cvInicial : CvState :=
  { player := .check, coord := .store, jogoAtivo := true, musicaParada := false }

/-- The stuck state reached by the lost-wakeup schedule: the winner is in the
condition-variable wait set, the coordinator has already notified and
returned. -/
def cvPreso : CvState :=
  { player := .blocked, coord := .done, jogoAtivo := false, musicaParada := false }

/-
JogoDasCadeiras::eliminar_jogador (lines 78-85) and the fields it touches.
The constructor (lines 46-47) initialises only `cadeiras`; the member
`num_jogadores` is never initialised or read, and `eliminados` is
default-constructed empty and never resized anywhere in the program (the
function itself is never called).
-/

/-- The JogoDasCadeiras object state relevant to eliminar_jogador. -/
structure JogoDasCadeiras where
  cadeiras : Int
  eliminados : List Bool
  deriving DecidableEq, Repr

/-- The constructor `JogoDasCadeiras(int num_jogadores) : cadeiras(num_jogadores - 1)`:
`eliminados` stays empty. -/
def JogoDasCadeiras.nova (num_jogadores : Int) : JogoDasCadeiras :=
  { cadeiras := num_jogadores - 1, eliminados := [] }

/-- JogoDasCadeiras::eliminar_jogador: reads and writes
`eliminados[jogador_id - 1]` through unchecked operator[], which is undefined
behavior out of range (modelled as `none`); the `num_jogadores--` decrements
the by-value parameter only, so no field other than `eliminados` is written. -/
def JogoDasCadeiras.eliminar_jogador (jogo : JogoDasCadeiras)
    (jogador_id : Int) (num_jogadores : Int) : Option JogoDasCadeiras :=
  match jogo.eliminados[(jogador_id - 1).toNat]? with
  | none => none
  | some b =>
    if b = false then
      some { jogo with eliminados := jogo.eliminados.set (jogador_id - 1).toNat true }
    else
      some jogo

/-- Counterfactual from the claim: the same function with the indexing
bounds-guarded (a vector access out of range does nothing) instead of
undefined. -/
def eliminar_jogador_com_guarda (jogo : JogoDasCadeiras)
    (jogador_id : Int) (num_jogadores : Int) : JogoDasCadeiras :=
  match jogo.eliminados[(jogador_id - 1).toNat]? with
  | none => jogo
  | some b =>
    if b = false then
      { jogo with eliminados := jogo.eliminados.set (jogador_id - 1).toNat true }
    else
      jogo

/-- The ativo flag of player j as observed in the global state (false when the
index is out of range). -/
def ativo_de (s : GameState) (j : Nat) : Bool :=
  (s.jogadores[j]?.map Jogador.ativo).getD false

/-- Round-boundary invariant, before the music stops, with a the number of
still-active players: `cadeiras = a - 1`, the seat semaphore holds exactly the
round's chairs, the music is playing and no attempt flag is set. -/
def InvRodada (s : GameState) (a : Nat) : Prop :=
  jogadores_ativos s = a ∧
  s.cadeiras = (a : Int) - 1 ∧
  s.semCount = a - 1 ∧
  s.musica_parada = false ∧
  ∀ p ∈ s.jogadores, p.tentou_rodada = false

/-- The round boundary reached after r executed rounds of the synchronous
schedule, starting from the state main builds. -/
def rodada_fronteira (n r : Nat) : GameState :=
  (loop_body n)^[r] (estado_inicial n)

/-- A 4-player state in which every player has already been eliminated, used
to exercise the zero-active-players corner of the coordinator. -/
def todos_eliminados4 : GameState :=
  { estado_inicial 4 with
    jogadores := (estado_inicial 4).jogadores.map fun p => { p with ativo := false } }

/-- Spurious/repeated wake sequence delivered to one player within a single
round: k wakes, each running tentar_ocupar_cadeira, counting how many of them
fire the guard (make `tentou_rodada` transition to true and perform a seat
claim).  Interleaved operations of other threads never touch this player's
flags, and the guard does not depend on the shared counters, so threading
only this player's own view is faithful for the counted property. -/
def acorda : Shared → Jogador → Nat → Shared × Jogador × Nat
  | sh, p, 0 => (sh, p, 0)
  | sh, p, k + 1 =>
    ((acorda (tentar_ocupar_cadeira sh p).sh (tentar_ocupar_cadeira sh p).p k).1,
     (acorda (tentar_ocupar_cadeira sh p).sh (tentar_ocupar_cadeira sh p).p k).2.1,
     (acorda (tentar_ocupar_cadeira sh p).sh (tentar_ocupar_cadeira sh p).p k).2.2 +
       (if atentou p then 1 else 0))


/-
Helper lemmas.
-/

/-- Draining always empties the pool. -/
theorem drain_eq_zero (c : Nat) : drain c = 0 := by
  induction c with
  | zero => rfl
  | succ c ih => simpa [drain] using ih

/-- A wake delivered to an already-eliminated player changes nothing. -/
theorem tentar_ocupar_inativo (sh : Shared) (p : Jogador) (h : p.ativo = false) :
    tentar_ocupar_cadeira sh p = ⟨sh, p, none⟩ := by
  simp [tentar_ocupar_cadeira, h]

/-- A wake delivered to a player that already attempted this round changes
nothing. -/
theorem tentar_ocupar_ja_tentou (sh : Shared) (p : Jogador) (h : p.tentou_rodada = true) :
    tentar_ocupar_cadeira sh p = ⟨sh, p, none⟩ := by
  simp [tentar_ocupar_cadeira, h]

/-- When the guard fires, the resulting player has its attempt flag set. -/
theorem tentar_ocupar_tentou (sh : Shared) (p : Jogador) (h : atentou p = true) :
    (tentar_ocupar_cadeira sh p).p.tentou_rodada = true := by
  have h' := h
  simp [atentou] at h'
  simp [tentar_ocupar_cadeira, verificar_eliminacao, h'.1, h'.2]
  split <;> rfl

/-
C7: the drain-then-release reset protocol.
-/

/-- C7: the drain loop (repeated non-blocking acquires until one fails) leaves
the seat pool at exactly 0, so draining and then releasing n permits leaves
the pool at exactly n: no stale permits survive into the new round. -/
theorem c7_drain_release (c m : Nat) :
    drain c = 0 ∧ release (drain c) m = m := by
  refine ⟨drain_eq_zero c, ?_⟩
  simp [release, drain_eq_zero]

/-
C9: JogoDasCadeiras::eliminar_jogador is broken and inert.
-/

/-- C9: the constructor never sizes `eliminados`, so on the object the game
builds every call of eliminar_jogador indexes the empty vector out of bounds
(undefined behavior, modelled as none); and were the access bounds-guarded,
the call would leave the object unchanged, because the `num_jogadores--` only
decrements the by-value parameter. -/
theorem c9_eliminar_jogador_fora_dos_limites (jogador_id num_jogadores : Int) :
    (JogoDasCadeiras.nova 4).eliminar_jogador jogador_id num_jogadores = none ∧
    eliminar_jogador_com_guarda (JogoDasCadeiras.nova 4) jogador_id num_jogadores =
      JogoDasCadeiras.nova 4 := by
  constructor <;>
    simp [JogoDasCadeiras.eliminar_jogador, eliminar_jogador_com_guarda, JogoDasCadeiras.nova]

/-
C8: the end-of-game wakeup can be lost.
-/

/-- C8 (failing schedule): from the end-of-game window there is an execution
of the condition-variable handshake in which the winner's thread evaluates
the wait predicate before the coordinator's unlocked `jogo_ativo.store(false)`
and joins the wait set only after the final notify_all; it then sits in the
wait set in a state from which no step is enabled, so it is never woken and
its loop never exits. -/
theorem c8_wakeup_perdido :
    Relation.ReflTransGen CvStep cvInicial cvPreso ∧
    cvPreso.player = PlayerPC.blocked ∧
    ∀ u, ¬ CvStep cvPreso u := by
  refine ⟨?_, rfl, ?_⟩
  · refine Relation.ReflTransGen.head (CvStep.check_espera cvInicial rfl rfl) ?_
    refine Relation.ReflTransGen.head (CvStep.coord_store _ rfl) ?_
    refine Relation.ReflTransGen.head (CvStep.coord_notify _ rfl) ?_
    refine Relation.ReflTransGen.head (CvStep.bloqueia _ rfl) ?_
    exact Relation.ReflTransGen.refl
  · intro u h
    cases h <;> simp_all [cvPreso, waitPred]

/-
C3: the seat-pool bound.
-/

/-- C3 (counterexample): it is not true that at every observation point of the
run the seat-pool count stays within the chair count configured for the
current round: right after liberar_threads_eliminadas at the end of round 2
(observation point 14 of the N=4 trace) the pool holds 3 permits while the
current round is configured with 2 chairs. -/
theorem c3_contraexemplo_contagem :
    ¬ ∀ pr ∈ trace4, ((pr.1 : Int) ≤ pr.2) := by decide

/-- C3 (amended): at every observation point of the run the seat-pool count is
never negative and never exceeds NUM_JOGADORES - 1, the game-wide chair
maximum; the per-round bound is re-established by the drain inside
iniciar_rodada but does not hold in the window opened by
liberar_threads_eliminadas. -/
theorem c3_limite_global :
    ∀ pr ∈ trace4, ((0 : Int) ≤ (pr.1 : Int) ∧ (pr.1 : Int) ≤ (NUM_JOGADORES : Int) - 1) := by
  decide

/-- Witness for c3_limite_global at the initial observation point. -/
theorem c3_limite_global_witness :
    ((3 : Nat), (3 : Int)) ∈ trace4 ∧
    ((0 : Int) ≤ ((3 : Nat) : Int) ∧ ((3 : Nat) : Int) ≤ (NUM_JOGADORES : Int) - 1) :=
  ⟨by decide, c3_limite_global ((3 : Nat), (3 : Int)) (by decide)⟩

/-
C6: zero active players is not treated as fatal.
-/

/-- If no player is active, encontrar_vencedor returns the sentinel -1. -/
theorem encontrar_vencedor_nenhum (ps : List Jogador) (h : ∀ p ∈ ps, p.ativo = false) :
    encontrar_vencedor ps = -1 := by
  induction ps with
  | nil => rfl
  | cons p ps ih =>
    have hp : p.esta_ativo = false := by
      simp [Jogador.esta_ativo, h p (by simp)]
    simp only [encontrar_vencedor, hp, Bool.false_eq_true, if_false]
    exact ih fun q hq => h q (by simp [hq])

/-- With at most one active player the coordinator loop exits at once,
whatever the fuel. -/
theorem iniciar_jogo_loop_fix (n f : Nat) (s : GameState) (h : jogadores_ativos s ≤ 1) :
    iniciar_jogo_loop n f s = s := by
  have hc : jogo_ativo_check (jogadores_ativos s : Int) = false := by
    simp only [jogo_ativo_check, decide_eq_false_iff_not]
    omega
  cases f with
  | zero => rfl
  | succ f => simp [iniciar_jogo_loop, hc]

/-- All-inactive lists have countP zero and conversely. -/
theorem contar_ativos_eq_zero (ps : List Jogador) :
    contar_ativos ps = 0 ↔ ∀ p ∈ ps, p.ativo = false := by
  simp [contar_ativos, List.countP_eq_zero, Jogador.esta_ativo]

/-- C6 (counterexample): starting the coordinator with zero active players
does not abort: the loop exits immediately, a winner result is produced (the
sentinel id -1 is announced) and the game-over flag is stored exactly as on
the normal path. -/
theorem c6_contraexemplo_sem_ativos :
    jogadores_ativos todos_eliminados4 = 0 ∧
    (iniciar_jogo 4 4 todos_eliminados4).2 = -1 ∧
    (iniciar_jogo 4 4 todos_eliminados4).1.jogo_ativo = false := by
  refine ⟨by decide, by decide, by decide⟩

/-- C6 (amended): if the active count reaches 0, the program recovers rather
than aborting: for any fuel the coordinator loop exits immediately, the
announced winner is the sentinel -1, and the only state change is the normal
game-over store. -/
theorem c6_sem_aborto (n fuel : Nat) (s : GameState) (h : jogadores_ativos s = 0) :
    (iniciar_jogo n fuel s).2 = -1 ∧
    (iniciar_jogo n fuel s).1 = { s with jogo_ativo := false } := by
  have hfix : iniciar_jogo_loop n fuel s = s :=
    iniciar_jogo_loop_fix n fuel s (by omega)
  have hv : encontrar_vencedor s.jogadores = -1 :=
    encontrar_vencedor_nenhum s.jogadores ((contar_ativos_eq_zero s.jogadores).mp h)
  simp [iniciar_jogo, hfix, hv]

/-- Witness for c6_sem_aborto on the concrete all-eliminated 4-player state. -/
theorem c6_sem_aborto_witness :
    jogadores_ativos todos_eliminados4 = 0 ∧
    ((iniciar_jogo 4 1 todos_eliminados4).2 = -1 ∧
     (iniciar_jogo 4 1 todos_eliminados4).1 =
       { todos_eliminados4 with jogo_ativo := false }) :=
  ⟨by decide, c6_sem_aborto 4 1 todos_eliminados4 (by decide)⟩

/-
C4: at most one attempt per player per round.
-/

/-- Wakes delivered after the round's attempt flag is set change nothing and
fire no attempt. -/
theorem acorda_ja_tentou (sh : Shared) (p : Jogador) (k : Nat) (h : p.tentou_rodada = true) :
    acorda sh p k = (sh, p, 0) := by
  induction k with
  | zero => rfl
  | succ k ih =>
    simp only [acorda, tentar_ocupar_ja_tentou sh p h]
    simp [ih, atentou, h]

/-- Wakes delivered to an eliminated player change nothing and fire no
attempt. -/
theorem acorda_inativo (sh : Shared) (p : Jogador) (k : Nat) (h : p.ativo = false) :
    acorda sh p k = (sh, p, 0) := by
  induction k with
  | zero => rfl
  | succ k ih =>
    simp only [acorda, tentar_ocupar_inativo sh p h]
    simp [ih, atentou, h]

/-- C4: under any number of (possibly spurious) wakes within one round, a
player's attempt flag transitions to true at most once — the guard of
tentar_ocupar_cadeira fires at most one seat claim — and a player whose
active flag is false never performs a claim at all (its wakes are no-ops). -/
theorem c4_tentativa_unica (sh : Shared) (p : Jogador) (k : Nat) :
    (acorda sh p k).2.2 ≤ 1 ∧
    (p.ativo = false → acorda sh p k = (sh, p, 0)) := by
  refine ⟨?_, fun h => acorda_inativo sh p k h⟩
  cases k with
  | zero => simp [acorda]
  | succ k =>
    cases hv : p.ativo with
    | false => simp [acorda_inativo sh p (k + 1) hv]
    | true =>
      cases ht : p.tentou_rodada with
      | true => simp [acorda_ja_tentou sh p (k + 1) ht]
      | false =>
        have hA : atentou p = true := by simp [atentou, hv, ht]
        have hrest :=
          acorda_ja_tentou (tentar_ocupar_cadeira sh p).sh (tentar_ocupar_cadeira sh p).p k
            (tentar_ocupar_tentou sh p hA)
        simp [acorda, hrest, hA]

/-- Witness for c4_tentativa_unica on a concrete player and wake count. -/
theorem c4_tentativa_unica_witness :
    (acorda ⟨3, 1⟩ (Jogador.nova 1) 5).2.2 ≤ 1 ∧
    ((Jogador.nova 1).ativo = false →
      acorda ⟨3, 1⟩ (Jogador.nova 1) 5 = (⟨3, 1⟩, Jogador.nova 1, 0)) :=
  c4_tentativa_unica ⟨3, 1⟩ (Jogador.nova 1) 5

/-
C5: elimination is permanent under every schedule.
-/

/-- No primitive operation revives an inactive player. -/
theorem applyOp_preserva_inativo (n : Nat) (op : Op) (s : GameState) (j : Nat)
    (h : ativo_de s j = false) : ativo_de (applyOp n s op) j = false := by
  cases op with
  | parar => simpa [applyOp, parar_musica, ativo_de] using h
  | liberar => simpa [applyOp, liberar_threads_eliminadas, ativo_de] using h
  | rodada => simpa [applyOp, iniciar_rodada, ativo_de] using h
  | fim => simpa [applyOp, ativo_de] using h
  | reseta =>
    simp only [applyOp, reseta_rodada_jogadores, ativo_de, List.getElem?_map] at h ⊢
    cases hm : s.jogadores[j]? with
    | none => simp
    | some p =>
      rw [hm] at h
      simpa [Jogador.reseta_rodada] using h
  | tentar i =>
    simp only [applyOp, tentar_at]
    cases hm : s.jogadores[i]? with
    | none => simpa [hm] using h
    | some p =>
      by_cases hij : i = j
      · subst hij
        have hp : p.ativo = false := by
          simpa [ativo_de, hm] using h
        have hlen : i < s.jogadores.length := by
          rcases List.getElem?_eq_some.mp hm with ⟨hl, _⟩
          exact hl
        simp [ativo_de, tentar_ocupar_inativo _ p hp, List.getElem?_set, hlen, hp]
      · simpa [ativo_de, List.getElem?_set, hij] using h

/-- No schedule of primitive operations revives an inactive player. -/
theorem applyOps_preserva_inativo (n : Nat) (ops : List Op) :
    ∀ (s : GameState) (j : Nat),
      ativo_de s j = false → ativo_de (applyOps n s ops) j = false := by
  induction ops with
  | nil => intro s j h; exact h
  | cons op ops ih =>
    intro s j h
    exact ih _ j (applyOp_preserva_inativo n op s j h)

/-- C5: once a player's active flag is false it stays false for the rest of
the execution — no operation of any component, in any order or number, sets
it back to true. -/
theorem c5_eliminado_permanece (n : Nat) (ops : List Op) (s : GameState) (j : Nat)
    (h : ativo_de s j = false) : ativo_de (applyOps n s ops) j = false :=
  applyOps_preserva_inativo n ops s j h

/-- Witness for c5_eliminado_permanece: an eliminated player stays eliminated
across a whole further game's worth of operations. -/
theorem c5_eliminado_permanece_witness :
    ativo_de todos_eliminados4 0 = false ∧
    ativo_de (applyOps 4 todos_eliminados4 ops_jogo4) 0 = false :=
  ⟨by decide, c5_eliminado_permanece 4 ops_jogo4 todos_eliminados4 0 (by decide)⟩

/-
The synchronous round: counting lemma for the claim window.
-/

/-- Behaviour of one claim window when no attempt flag is set at its start
(the coordinator cleared them): with k active players and m permits, the pool
ends at m - k, min k m players stay active, and the printed chair ordinals
are exactly num+1, num+2, ..., num + min k m. -/
theorem tentativas_spec (ps : List Jogador) : ∀ sh : Shared,
    (∀ p ∈ ps, p.tentou_rodada = false) →
    (tentativas sh ps).sh.sem = sh.sem - contar_ativos ps ∧
    contar_ativos (tentativas sh ps).js = min (contar_ativos ps) sh.sem ∧
    (tentativas sh ps).sh.num = sh.num + min (contar_ativos ps) sh.sem ∧
    (tentativas sh ps).labels = List.range' (sh.num + 1) (min (contar_ativos ps) sh.sem) := by
  induction ps with
  | nil =>
    intro sh h
    simp [tentativas, contar_ativos]
  | cons p ps ih =>
    intro sh h
    have hp : p.tentou_rodada = false := h p (by simp)
    have hps : ∀ q ∈ ps, q.tentou_rodada = false := fun q hq => h q (by simp [hq])
    cases hA : p.ativo with
    | false =>
      have hc : contar_ativos (p :: ps) = contar_ativos ps := by
        simp [contar_ativos, List.countP_cons, Jogador.esta_ativo, hA]
      have key : tentativas sh (p :: ps) =
          ⟨(tentativas sh ps).sh, p :: (tentativas sh ps).js, (tentativas sh ps).labels⟩ := by
        simp [tentativas, tentar_ocupar_inativo sh p hA]
      obtain ⟨h1, h2, h3, h4⟩ := ih sh hps
      rw [key, hc]
      refine ⟨h1, ?_, h3, h4⟩
      simpa [contar_ativos, List.countP_cons, Jogador.esta_ativo, hA] using h2
    | true =>
      have hc : contar_ativos (p :: ps) = contar_ativos ps + 1 := by
        simp [contar_ativos, List.countP_cons, Jogador.esta_ativo, hA]
      by_cases hS : 0 < sh.sem
      · -- a seat is available: this player sits
        have hguard : tentar_ocupar_cadeira sh p =
            ⟨⟨sh.sem - 1, sh.num + 1⟩, { p with tentou_rodada := true }, some (sh.num + 1)⟩ := by
          simp [tentar_ocupar_cadeira, hA, hp, verificar_eliminacao, try_acquire, hS]
        have key : tentativas sh (p :: ps) =
            ⟨(tentativas ⟨sh.sem - 1, sh.num + 1⟩ ps).sh,
             { p with tentou_rodada := true } :: (tentativas ⟨sh.sem - 1, sh.num + 1⟩ ps).js,
             (sh.num + 1) :: (tentativas ⟨sh.sem - 1, sh.num + 1⟩ ps).labels⟩ := by
          simp [tentativas, hguard]
        obtain ⟨h1, h2, h3, h4⟩ := ih ⟨sh.sem - 1, sh.num + 1⟩ hps
        simp only at h1 h2 h3 h4
        rw [key, hc]
        have hmin : min (contar_ativos ps + 1) sh.sem = min (contar_ativos ps) (sh.sem - 1) + 1 := by
          omega
        refine ⟨?_, ?_, ?_, ?_⟩
        · rw [h1]; omega
        · have hx : contar_ativos ({ p with tentou_rodada := true } ::
              (tentativas ⟨sh.sem - 1, sh.num + 1⟩ ps).js) =
              contar_ativos (tentativas ⟨sh.sem - 1, sh.num + 1⟩ ps).js + 1 := by
            simp [contar_ativos, List.countP_cons, Jogador.esta_ativo, hA]
          rw [hx, h2]
          omega
        · rw [h3, hmin]; omega
        · rw [h4, hmin, List.range'_succ]
      · -- no seat: the guard fires but the claim fails and p is eliminated
        have hS0 : sh.sem = 0 := by omega
        have hguard : tentar_ocupar_cadeira sh p =
            ⟨sh, { p with tentou_rodada := true, ativo := false }, none⟩ := by
          simp [tentar_ocupar_cadeira, hA, hp, verificar_eliminacao, try_acquire, hS0]
        have key : tentativas sh (p :: ps) =
            ⟨(tentativas sh ps).sh,
             { p with tentou_rodada := true, ativo := false } :: (tentativas sh ps).js,
             (tentativas sh ps).labels⟩ := by
          simp [tentativas, hguard]
        obtain ⟨h1, h2, h3, h4⟩ := ih sh hps
        rw [key, hc]
        refine ⟨?_, ?_, ?_, ?_⟩
        · rw [h1]; omega
        · rw [show min (contar_ativos ps + 1) sh.sem = min (contar_ativos ps) sh.sem from by omega]
          simpa [contar_ativos, List.countP_cons, Jogador.esta_ativo] using h2
        · rw [h3]; omega
        · rw [h4]
          have : min (contar_ativos ps + 1) sh.sem = min (contar_ativos ps) sh.sem := by omega
          rw [this]

/-- Field-level description of one coordinator loop iteration. -/
theorem loop_body_campos (n : Nat) (s : GameState) :
    (loop_body n s).jogadores =
      (tentativas ⟨s.semCount, s.numero_cadeira⟩ s.jogadores).js.map Jogador.reseta_rodada ∧
    (loop_body n s).cadeiras = s.cadeiras - 1 ∧
    (loop_body n s).semCount = (s.cadeiras - 1).toNat ∧
    (loop_body n s).musica_parada = false ∧
    (loop_body n s).numero_cadeira = 1 := by
  refine ⟨?_, ?_, ?_, ?_, ?_⟩ <;>
    simp [loop_body, reseta_rodada_jogadores, iniciar_rodada, liberar_threads_eliminadas,
      grace_period, parar_musica, release, drain_eq_zero]

/-- Clearing the attempt flags does not change who is active. -/
theorem contar_ativos_reseta (l : List Jogador) :
    contar_ativos (l.map Jogador.reseta_rodada) = contar_ativos l := by
  rw [contar_ativos, List.countP_map]
  rfl

/-- One loop iteration takes the round invariant for a active players, a at
least 2, to the round invariant for a - 1. -/
theorem loop_body_inv (n : Nat) (s : GameState) (a : Nat) (ha : 2 ≤ a)
    (h : InvRodada s a) : InvRodada (loop_body n s) (a - 1) := by
  obtain ⟨h1, h2, h3, h4, h5⟩ := h
  obtain ⟨hj, hcad, hsem, hmus, hnum⟩ := loop_body_campos n s
  obtain ⟨t1, t2, t3, t4⟩ := tentativas_spec s.jogadores ⟨s.semCount, s.numero_cadeira⟩ h5
  simp only at t1 t2 t3 t4
  rw [jogadores_ativos] at h1
  refine ⟨?_, ?_, ?_, hmus, ?_⟩
  · rw [jogadores_ativos, hj, contar_ativos_reseta, t2, h1, h3]
    omega
  · rw [hcad, h2]
    omega
  · rw [hsem, h2]
    omega
  · rw [hj]
    intro p hp
    rcases List.mem_map.mp hp with ⟨q, hq, rfl⟩
    simp [Jogador.reseta_rodada]

/-- The state main builds satisfies the round invariant for n players. -/
theorem inv_estado_inicial (n : Nat) : InvRodada (estado_inicial n) n := by
  have hall : ∀ p ∈ (estado_inicial n).jogadores, p.esta_ativo = true := by
    intro p hp
    simp only [estado_inicial, List.mem_map, List.mem_range] at hp
    obtain ⟨i, hi, rfl⟩ := hp
    rfl
  refine ⟨?_, rfl, rfl, rfl, ?_⟩
  · rw [jogadores_ativos, contar_ativos, List.countP_eq_length.mpr hall]
    have hjs : (estado_inicial n).jogadores =
        (List.range n).map fun (i : Nat) => Jogador.nova ((i : Int) + 1) := rfl
    rw [hjs, List.length_map, List.length_range]
  · intro p hp
    simp only [estado_inicial, List.mem_map, List.mem_range] at hp
    obtain ⟨i, hi, rfl⟩ := hp
    rfl

/-- The round invariant holds at every executed round boundary. -/
theorem rodada_fronteira_inv (n : Nat) (hn : 2 ≤ n) :
    ∀ r, r ≤ n - 1 → InvRodada (rodada_fronteira n r) (n - r) := by
  intro r
  induction r with
  | zero =>
    intro h0
    simpa [rodada_fronteira] using inv_estado_inicial n
  | succ r ih =>
    intro hr
    have hinv := ih (by omega)
    have hstep := loop_body_inv n (rodada_fronteira n r) (n - r) (by omega) hinv
    have hiter : rodada_fronteira n (r + 1) = loop_body n (rodada_fronteira n r) := by
      simp [rodada_fronteira, Function.iterate_succ_apply']
    rw [hiter, show n - (r + 1) = (n - r) - 1 from by omega]
    exact hstep

/-
C2: chairs = active players - 1 at every round boundary.
-/

/-- C2: for every game of n >= 2 players and every executed round boundary r
(the initial state and the state after each completed round, i.e. before the
next music stop), the chair count equals the number of still-active players
minus one; equivalently, iniciar_rodada released exactly the post-elimination
active count minus one seats. -/
theorem c2_cadeiras_sao_ativos_menos_um (n r : Nat) (hn : 2 ≤ n) (hr : r ≤ n - 1) :
    (rodada_fronteira n r).cadeiras = (jogadores_ativos (rodada_fronteira n r) : Int) - 1 := by
  obtain ⟨h1, h2, -, -, -⟩ := rodada_fronteira_inv n hn r hr
  rw [h1, h2]

/-- Witness for c2_cadeiras_sao_ativos_menos_um at n = 4, r = 1. -/
theorem c2_cadeiras_sao_ativos_menos_um_witness :
    2 ≤ 4 ∧ 1 ≤ 4 - 1 ∧
    (rodada_fronteira 4 1).cadeiras = (jogadores_ativos (rodada_fronteira 4 1) : Int) - 1 :=
  ⟨by decide, by decide, c2_cadeiras_sao_ativos_menos_um 4 1 (by decide) (by decide)⟩

/-
C1: termination with a unique announced winner and exit code 0.
-/

/-- From any invariant state with a >= 1 active players, the coordinator loop
terminates in a - 1 iterations at an invariant state with exactly one active
player; any fuel of at least a - 1 gives the same result. -/
theorem iniciar_jogo_loop_reaches (n : Nat) :
    ∀ a, 1 ≤ a → ∀ (s : GameState) (f : Nat), InvRodada s a → a - 1 ≤ f →
      InvRodada (iniciar_jogo_loop n f s) 1 ∧
      iniciar_jogo_loop n f s = iniciar_jogo_loop n (a - 1) s := by
  intro a
  induction a with
  | zero => intro h; omega
  | succ a ih =>
    intro _ s f hinv hf
    cases Nat.eq_zero_or_pos a with
    | inl h0 =>
      subst h0
      have hfix1 : iniciar_jogo_loop n f s = s :=
        iniciar_jogo_loop_fix n f s (by rw [hinv.1])
      refine ⟨by rw [hfix1]; exact hinv, by rw [hfix1]; rfl⟩
    | inr hpos =>
      obtain ⟨f', rfl⟩ : ∃ f', f = f' + 1 := ⟨f - 1, by omega⟩
      have hcond : jogo_ativo_check (jogadores_ativos s : Int) = true := by
        rw [hinv.1]
        simp only [jogo_ativo_check, decide_eq_true_eq]
        omega
      have hbody : InvRodada (loop_body n s) a := by
        simpa using loop_body_inv n s (a + 1) (by omega) hinv
      have hstep : iniciar_jogo_loop n (f' + 1) s = iniciar_jogo_loop n f' (loop_body n s) := by
        simp [iniciar_jogo_loop, hcond]
      have hstep2 : iniciar_jogo_loop n a s = iniciar_jogo_loop n (a - 1) (loop_body n s) := by
        obtain ⟨a', rfl⟩ : ∃ a', a = a' + 1 := ⟨a - 1, by omega⟩
        simp [iniciar_jogo_loop, hcond]
      obtain ⟨ih1, ih2⟩ := ih hpos (loop_body n s) f' hbody (by omega)
      refine ⟨by rw [hstep]; exact ih1, ?_⟩
      calc iniciar_jogo_loop n (f' + 1) s
        _ = iniciar_jogo_loop n f' (loop_body n s) := hstep
        _ = iniciar_jogo_loop n (a - 1) (loop_body n s) := ih2
        _ = iniciar_jogo_loop n a s := hstep2.symm
        _ = iniciar_jogo_loop n (a + 1 - 1) s := by rw [Nat.add_sub_cancel]

/-- With exactly one active player, encontrar_vencedor announces precisely
the id of that player. -/
theorem encontrar_vencedor_unico (ps : List Jogador) (h : contar_ativos ps = 1) :
    ∀ p ∈ ps, p.ativo = true → encontrar_vencedor ps = p.id := by
  induction ps with
  | nil => intro p hp; cases hp
  | cons q ps ih =>
    intro p hp hpa
    cases hq : q.esta_ativo with
    | true =>
      have hz : contar_ativos ps = 0 := by
        rw [contar_ativos, List.countP_cons_of_pos _ _ (by simpa using hq)] at h
        rw [contar_ativos]
        omega
      rcases List.mem_cons.mp hp with rfl | hp2
      · simp [encontrar_vencedor, hq]
      · exact absurd hpa (by simp [(contar_ativos_eq_zero ps).mp hz p hp2])
    | false =>
      have h' : contar_ativos ps = 1 := by
        rw [contar_ativos, List.countP_cons_of_neg _ _ (by simp [hq])] at h
        exact h
      rcases List.mem_cons.mp hp with rfl | hp2
      · exact absurd hq (by simp [Jogador.esta_ativo, hpa])
      · simp only [encontrar_vencedor, hq, Bool.false_eq_true, if_false]
        exact ih h' p hp2 hpa

/-- C1: for every n >= 2 the game terminates (any fuel of at least n - 1
iterations yields the same final state), at termination exactly one player
still has ativo = true, the announced winner is that player's id, and main
returns exit code 0. -/
theorem c1_terminacao_vencedor (n : Nat) (hn : 2 ≤ n) :
    jogadores_ativos (main_run n).1 = 1 ∧
    (∀ p ∈ (main_run n).1.jogadores, p.ativo = true → (main_run n).2.1 = p.id) ∧
    (main_run n).2.2 = 0 ∧
    (∀ f, n - 1 ≤ f →
      iniciar_jogo_loop n f (estado_inicial n) = iniciar_jogo_loop n (n - 1) (estado_inicial n)) := by
  have hinv := inv_estado_inicial n
  have hmain :=
    iniciar_jogo_loop_reaches n n (by omega) (estado_inicial n) n hinv (by omega)
  refine ⟨?_, ?_, rfl, ?_⟩
  · show jogadores_ativos (iniciar_jogo n n (estado_inicial n)).1 = 1
    simp only [iniciar_jogo, jogadores_ativos]
    exact hmain.1.1
  · intro p hp hpa
    show (iniciar_jogo n n (estado_inicial n)).2 = p.id
    simp only [iniciar_jogo]
    exact encontrar_vencedor_unico _ hmain.1.1 p (by simpa [main_run, iniciar_jogo] using hp) hpa
  · intro f hf
    exact (iniciar_jogo_loop_reaches n n (by omega) (estado_inicial n) f hinv (by omega)).2

/-- Witness for c1_terminacao_vencedor at the shipped player count n = 4. -/
theorem c1_terminacao_vencedor_witness :
    2 ≤ 4 ∧
    (jogadores_ativos (main_run 4).1 = 1 ∧
     (∀ p ∈ (main_run 4).1.jogadores, p.ativo = true → (main_run 4).2.1 = p.id) ∧
     (main_run 4).2.2 = 0 ∧
     (∀ f, 4 - 1 ≤ f →
       iniciar_jogo_loop 4 f (estado_inicial 4) =
         iniciar_jogo_loop 4 (4 - 1) (estado_inicial 4))) :=
  ⟨by decide, c1_terminacao_vencedor 4 (by decide)⟩

/-
C10: chair ordinals are printed shifted by one.
-/

/-- C10: `numero_cadeira` starts at 1 (and every iniciar_rodada resets it
to 1), and each successful claim prints the fetch-and-add result plus one, so
in a round with c seats the printed labels are exactly 2, 3, ..., up to at
most c + 1 (the i-th successful claim, counting from 1, is labelled i + 1):
the label 1 is never printed and no label exceeds c + 1. -/
theorem c10_rotulos_das_cadeiras (ps : List Jogador) (c : Nat)
    (h : ∀ p ∈ ps, p.tentou_rodada = false) :
    (∀ (s : GameState) (x : Int), (iniciar_rodada s x).numero_cadeira = 1) ∧
    (tentativas ⟨c, 1⟩ ps).labels = List.range' 2 (min (contar_ativos ps) c) ∧
    1 ∉ (tentativas ⟨c, 1⟩ ps).labels ∧
    (∀ l ∈ (tentativas ⟨c, 1⟩ ps).labels, 2 ≤ l ∧ l ≤ c + 1) := by
  obtain ⟨-, -, -, t4⟩ := tentativas_spec ps ⟨c, 1⟩ h
  simp only at t4
  have t4' : (tentativas ⟨c, 1⟩ ps).labels = List.range' 2 (min (contar_ativos ps) c) := t4
  refine ⟨fun s x => rfl, t4', ?_, ?_⟩
  · rw [t4']
    intro hmem
    obtain ⟨i, hik, hi⟩ := List.mem_range'.mp hmem
    omega
  · rw [t4']
    intro l hl
    obtain ⟨i, hik, rfl⟩ := List.mem_range'.mp hl
    omega

/-- Witness for c10_rotulos_das_cadeiras: a fresh round with 4 players and 3
seats prints no label 1. -/
theorem c10_rotulos_das_cadeiras_witness :
    (∀ p ∈ [Jogador.nova 1, Jogador.nova 2, Jogador.nova 3, Jogador.nova 4],
      p.tentou_rodada = false) ∧
    1 ∉ (tentativas ⟨3, 1⟩
      [Jogador.nova 1, Jogador.nova 2, Jogador.nova 3, Jogador.nova 4]).labels :=
  ⟨by decide,
   (c10_rotulos_das_cadeiras
     [Jogador.nova 1, Jogador.nova 2, Jogador.nova 3, Jogador.nova 4] 3 (by decide)).2.2.1⟩
